import Mathlib

/-!
Shallow embedding of the BallotScope shapefile normalizer (`src/app.py`):
the helper `get_largest_polygon` (lines 11-25) and the load/transform
routine `load_data` (lines 30-83), together with the `st.cache_data`
memoization wrapper.  Geometries are embedded with exact rational
coordinates, pandas float columns with an explicit NaN/infinity-aware
value type, and the GeoDataFrame as a list of structured rows plus an
explicit column-name list and CRS code.
-/

/-- A planar coordinate of a geometry vertex (embedded exactly, as a rational). -/
structure Point where
  x : ℚ
  y : ℚ
deriving DecidableEq

/-- A shapely `Polygon`, given by its exterior ring of vertices. -/
structure Polygon where
  ring : List Point
deriving DecidableEq

/-- A geometry value of a row: a shapely `Polygon`, a shapely `MultiPolygon`
with its list of polygon parts, or any other (unsupported or missing)
geometry. -/
inductive Geometry where
  | polygon (p : Polygon)
  | multiPolygon (parts : List Polygon)
  | unsupported
deriving DecidableEq

/-- One shoelace term: the cross product of two consecutive vertices. -/
def cross (a b : Point) : ℚ := a.x * b.y - b.x * a.y

/-- Twice the signed area of a closed ring: the shoelace sum over consecutive
vertex pairs, including the wrap-around edge from the last vertex back to the
first. -/
def shoelace : List Point → ℚ
  | [] => 0
  | p :: ps => (List.zipWith cross (p :: ps) (ps ++ [p])).sum

/-- The area of a polygon (shapely `Polygon.area`): half the absolute value of
the shoelace sum of its exterior ring. -/
def area (p : Polygon) : ℚ := |shoelace p.ring| / 2

/-- Python `max(geoms, key=lambda p: p.area)` over a nonempty list `p :: ps`:
scans left to right and replaces the current best only on a strictly larger
area, so the first polygon of maximal area is returned. -/
def maxByArea (p : Polygon) (ps : List Polygon) : Polygon :=
  ps.foldl (fun best q => if area best < area q then q else best) p

/-- `get_largest_polygon` (src/app.py lines 11-25): for a `MultiPolygon`,
`None` when it has no parts and otherwise its largest part by area; a
`Polygon` is returned as is; any other geometry type gives `None`. -/
def get_largest_polygon : Geometry → Option Polygon
  | Geometry.multiPolygon [] => none
  | Geometry.multiPolygon (p :: ps) => some (maxByArea p ps)
  | Geometry.polygon p => some p
  | Geometry.unsupported => none

/-- A pandas float cell value: a finite (rational) number, a signed infinity,
or NaN. -/
inductive PVal where
  | val (q : ℚ)
  | posInf
  | negInf
  | nan
deriving DecidableEq

/-- Pandas element-wise division: the finite quotient when the divisor is
nonzero, NaN for `0/0`, and a signed infinity for `x/0` with `x ≠ 0`. -/
def pdiv (a b : ℚ) : PVal :=
  if b = 0 then
    if a = 0 then PVal.nan
    else if 0 < a then PVal.posInf
    else PVal.negInf
  else PVal.val (a / b)

/-- `Series.fillna(0)` on one cell: NaN becomes `0`, every other value is kept. -/
def fillna0 : PVal → PVal
  | PVal.nan => PVal.val 0
  | v => v

/-- The `land_ratio` value of one row (src/app.py lines 78 and 81):
`ALAND / (ALAND + AWATER)` followed by `.fillna(0)`. -/
def landRatio (aland awater : ℚ) : PVal := fillna0 (pdiv aland (aland + awater))

/-- One district record of the GeoDataFrame.  `STATEFP` is the state FIPS code
as a string, `GEOID` the district identifier, `ALAND`/`AWATER` the land and
water areas, and `geometry` the shape.  The `filter1` and `land_ratio` fields
model the two columns the code assigns: `none` stands for the column being
absent from the frame. -/
structure Row where
  STATEFP : String
  GEOID : String
  ALAND : ℚ
  AWATER : ℚ
  geometry : Geometry
  filter1 : Option Int := none
  land_ratio : Option PVal := none
deriving DecidableEq

/-- A GeoDataFrame: its column names in order, its coordinate reference
system as an EPSG code, and its rows. -/
structure Table where
  cols : List String
  crs : Nat
  rows : List Row
deriving DecidableEq

/-- Python `int(...)` applied to a numeric FIPS string (`astype(int)` on the
`STATEFP` column, line 52), evaluated by folding over the digit characters.
Python raises on a non-numeric string; per the input contract `STATEFP` is
always a numeric code, and this model is only used on digit strings. -/
def statefpToInt (s : String) : Int :=
  ((s.data.foldl (fun n c => 10 * n + (c.toNat - 48)) 0 : Nat) : Int)

/-- Column assignment `df[c] = ...` at the frame level: a new column name is
appended at the end, an existing one is overwritten in place. -/
def addCol (cols : List String) (c : String) : List String :=
  if c ∈ cols then cols else cols ++ [c]

/-- Line 52 on one row: `geo_df['filter1'] = geo_df['STATEFP'].astype(int)`. -/
def setFilter1 (r : Row) : Row := { r with filter1 := some (statefpToInt r.STATEFP) }

/-- Line 53 predicate on one row: `geo_df['filter1'] < 57`. -/
def passFilter (r : Row) : Bool :=
  match r.filter1 with
  | some v => decide (v < 57)
  | none => false

/-- Lines 52-53 on the row list: assign `filter1` on every row, then keep only
the rows whose `filter1` is `< 57`. -/
def filterStates (rows : List Row) : List Row :=
  (rows.map setFilter1).filter passFilter

/-- Line 59: the fixed FIPS code identifying Alaska rows. -/
def alaska_fips : String := "02"

/-- Line 60 on one row: `gdf['STATEFP'] == alaska_fips`. -/
def isAlaska (r : Row) : Bool := r.STATEFP == alaska_fips

/-- Lines 64 and 67 on one row: an Alaska row has `get_largest_polygon`
applied to its geometry and is dropped (`none`) when the result is null;
a non-Alaska row is passed through untouched. -/
def repairRow (r : Row) : Option Row :=
  if isAlaska r then
    (get_largest_polygon r.geometry).map (fun p => { r with geometry := Geometry.polygon p })
  else some r

/-- Lines 64, 67 and 70 on the row list: repair the Alaska geometries, drop
the rows whose repaired geometry is null, and reindex (a no-op on lists). -/
def fixAlaska (rows : List Row) : List Row := rows.filterMap repairRow

/-- Applies a coordinate transformation to every vertex of a geometry,
preserving the geometry's kind and part structure. -/
def mapGeomPoints (f : Point → Point) : Geometry → Geometry
  | Geometry.polygon p => Geometry.polygon ⟨p.ring.map f⟩
  | Geometry.multiPolygon ps => Geometry.multiPolygon (ps.map (fun q => ⟨q.ring.map f⟩))
  | Geometry.unsupported => Geometry.unsupported

/-- Reprojection of one row's geometry. -/
def projRow (f : Point → Point) (r : Row) : Row :=
  { r with geometry := mapGeomPoints f r.geometry }

/-- Line 74: `gdf.to_crs(epsg=4326)`.  `proj c` is the point transformation
from EPSG code `c` into EPSG 4326 supplied by the geodesy library; the
transformation of a table already in EPSG 4326 is the identity. -/
def toCrs (proj : Nat → Point → Point) (t : Table) : Table :=
  if t.crs = 4326 then t
  else { t with crs := 4326, rows := t.rows.map (projRow (proj t.crs)) }

/-- Lines 78 and 81 on one row: set `land_ratio` to
`ALAND / (ALAND + AWATER)` with NaN filled by `0`. -/
def setLandRatio (r : Row) : Row :=
  { r with land_ratio := some (landRatio r.ALAND r.AWATER) }

/-- Lines 78 and 81 on the table: assign the `land_ratio` column. -/
def addLandRatio (t : Table) : Table :=
  { t with cols := addCol t.cols "land_ratio", rows := t.rows.map setLandRatio }

/-- Lines 52-81: the normalization transform of `load_data` after parsing
(steps 3-7 of the design): state-code filter, Alaska largest-polygon repair
with silent row removal, reindex, reprojection to EPSG 4326, and the
`land_ratio` column. -/
def normalizeData (proj : Nat → Point → Point) (t : Table) : Table :=
  addLandRatio (toCrs proj
    { cols := addCol t.cols "filter1", crs := t.crs, rows := fixAlaska (filterStates t.rows) })

/-- The two failure modes of `load_data` (lines 41-50): the path does not
exist, or the shapefile reader raises while parsing.  In both cases the code
shows the message and calls `st.stop()`, so no table is produced. -/
inductive LoadError where
  | notFound
  | parseError (msg : String)
deriving DecidableEq

/-- The file system as `load_data` observes it: a path maps to nothing
(missing file, `os.path.exists` false), to a parse failure with its message
(`gpd.read_file` raises), or to the parsed raw table. -/
abbrev FileSys := String → Option (Except String Table)

/-- `load_data` (src/app.py lines 30-83): existence check, parse, then the
normalization transform.  An error value models the `st.error` message
followed by `st.stop()`, which halts with no partial output. -/
def load_data (proj : Nat → Point → Point) (fs : FileSys) (path : String) :
    Except LoadError Table :=
  match fs path with
  | none => Except.error LoadError.notFound
  | some (Except.error e) => Except.error (LoadError.parseError e)
  | some (Except.ok t) => Except.ok (normalizeData proj t)

/-- The `st.cache_data` store: previously computed tables keyed by the path
argument. -/
abbrev Cache := List (String × Table)

/-- Looks a path up in the memoization store. -/
def lookupCache (c : Cache) (path : String) : Option Table :=
  (c.find? (fun e => e.1 == path)).map (fun e => e.2)

/-- `load_data` as called through its `@st.cache_data` decorator: a hit
returns the stored table unchanged; a miss computes `load_data` and stores a
successful result (an exception is not cached). -/
def load_data_cached (proj : Nat → Point → Point) (fs : FileSys) (c : Cache)
    (path : String) : Except LoadError Table × Cache :=
  match lookupCache c path with
  | some t => (Except.ok t, c)
  | none =>
    match load_data proj fs path with
    | Except.ok t => (Except.ok t, (path, t) :: c)
    | Except.error e => (Except.error e, c)

/-- A memoization store is well formed when every entry holds exactly the
table `load_data` computes for its key. -/
def WFCache (proj : Nat → Point → Point) (fs : FileSys) (c : Cache) : Prop :=
  ∀ e ∈ c, load_data proj fs e.1 = Except.ok e.2

/-- Spec-side predicate (spec sections 3 and 8): the geometry is a single
polygon, never a multi-part geometry. -/
def isSinglePoly : Geometry → Bool
  | Geometry.polygon _ => true
  | _ => false

/-- The identity point transformation (used for concrete tables already in
EPSG 4326, where the reprojection does not move any point). -/
def projId : Nat → Point → Point := fun _ p => p

/-- A concrete non-identity reprojection (stands for the transformation from
a projected CRS such as EPSG 3857 into EPSG 4326, which moves coordinates). -/
def projShift : Nat → Point → Point := fun _ p => { x := p.x + 1, y := p.y }

/-- A rectangle of area 5. -/
def rect5 : Polygon := ⟨[⟨0, 0⟩, ⟨5, 0⟩, ⟨5, 1⟩, ⟨0, 1⟩]⟩

/-- A square of area 100. -/
def square100 : Polygon := ⟨[⟨0, 0⟩, ⟨10, 0⟩, ⟨10, 10⟩, ⟨0, 10⟩]⟩

/-- A rectangle of area 3. -/
def rect3 : Polygon := ⟨[⟨0, 0⟩, ⟨3, 0⟩, ⟨3, 1⟩, ⟨0, 1⟩]⟩

/-- A triangle of area 1/2. -/
def unitTri : Polygon := ⟨[⟨0, 0⟩, ⟨1, 0⟩, ⟨0, 1⟩]⟩

/-- The attribute columns of the input dataset. -/
def baseCols : List String := ["STATEFP", "GEOID", "ALAND", "AWATER", "geometry"]

/-- An Alaska row whose geometry is a multi-part geometry with component
areas 5, 100 and 3 (the scenario of spec section 8). -/
def rowAk : Row :=
  { STATEFP := "02", GEOID := "0200", ALAND := 300, AWATER := 100,
    geometry := Geometry.multiPolygon [rect5, square100, rect3] }

/-- The table holding only `rowAk`, already in EPSG 4326. -/
def tableAk : Table := { cols := baseCols, crs := 4326, rows := [rowAk] }

/-- The row `rowAk` becomes in the output of the transform. -/
def rowAkOut : Row :=
  { STATEFP := "02", GEOID := "0200", ALAND := 300, AWATER := 100,
    geometry := Geometry.polygon square100, filter1 := some 2,
    land_ratio := some (PVal.val (3 / 4)) }

/-- A non-Alaska row with a multi-part geometry (it passes the state filter
and is not repaired). -/
def rowMulti : Row :=
  { STATEFP := "01", GEOID := "0101", ALAND := 300, AWATER := 100,
    geometry := Geometry.multiPolygon [rect5, rect3] }

/-- The table holding only `rowMulti`, already in EPSG 4326. -/
def tableMulti : Table := { cols := baseCols, crs := 4326, rows := [rowMulti] }

/-- A non-Alaska row with `ALAND = 300` and `AWATER = 100` (the `land_ratio
= 0.75` scenario of spec section 8). -/
def row75 : Row :=
  { STATEFP := "01", GEOID := "0101", ALAND := 300, AWATER := 100,
    geometry := Geometry.polygon unitTri }

/-- The table holding only `row75`, already in EPSG 4326. -/
def table75 : Table := { cols := baseCols, crs := 4326, rows := [row75] }

/-- The row `row75` becomes in the output of the transform. -/
def row75out : Row :=
  { STATEFP := "01", GEOID := "0101", ALAND := 300, AWATER := 100,
    geometry := Geometry.polygon unitTri, filter1 := some 1,
    land_ratio := some (PVal.val (3 / 4)) }

/-- A row with state code 60 (American Samoa, a territory). -/
def row60 : Row :=
  { STATEFP := "60", GEOID := "6000", ALAND := 300, AWATER := 100,
    geometry := Geometry.polygon unitTri }

/-- An Alaska row whose multi-part geometry has zero components. -/
def rowAkEmpty : Row :=
  { STATEFP := "02", GEOID := "0201", ALAND := 300, AWATER := 100,
    geometry := Geometry.multiPolygon [] }

/-- The table holding only `row75` but in the projected CRS EPSG 3857. -/
def table3857 : Table := { cols := baseCols, crs := 3857, rows := [row75] }

/-- A file system with one well-formed file at path `good.shp`. -/
def fsGood : FileSys := fun path => if path == "good.shp" then some (Except.ok table75) else none

/-- A file system on which every path is missing. -/
def fsNone : FileSys := fun _ => none

/-- A file system on which every file fails to parse. -/
def fsBad : FileSys := fun _ => some (Except.error "corrupt")

/-! Helper lemmas about the embedded operations. -/

theorem addCol_of_mem {cols : List String} {c : String} (h : c ∈ cols) :
    addCol cols c = cols := by
  simp [addCol, h]

theorem mem_addCol_self (cols : List String) (c : String) : c ∈ addCol cols c := by
  by_cases h : c ∈ cols <;> simp [addCol, h]

theorem mem_addCol_of_mem {cols : List String} {c : String} (c' : String) (h : c ∈ cols) :
    c ∈ addCol cols c' := by
  by_cases h' : c' ∈ cols <;> simp [addCol, h', h]

theorem mem_filterStates {rows : List Row} {r : Row} :
    r ∈ filterStates rows ↔ ∃ r0 ∈ rows, setFilter1 r0 = r ∧ passFilter r = true := by
  simp only [filterStates, List.mem_filter, List.mem_map]
  constructor
  · rintro ⟨⟨r0, h0, rfl⟩, hp⟩
    exact ⟨r0, h0, rfl, hp⟩
  · rintro ⟨r0, h0, rfl, hp⟩
    exact ⟨⟨r0, h0, rfl⟩, hp⟩

theorem mem_fixAlaska {rows : List Row} {r : Row} :
    r ∈ fixAlaska rows ↔ ∃ r1 ∈ rows, repairRow r1 = some r := by
  simp [fixAlaska, List.mem_filterMap]

theorem repairRow_not_alaska {r : Row} (h : ¬ r.STATEFP = "02") : repairRow r = some r := by
  simp [repairRow, isAlaska, alaska_fips, h]

theorem repairRow_alaska {r : Row} (h : r.STATEFP = "02") :
    repairRow r = (get_largest_polygon r.geometry).map
      (fun p => { r with geometry := Geometry.polygon p }) := by
  simp [repairRow, isAlaska, alaska_fips, h]

theorem repairRow_some_fields {r r' : Row} (h : repairRow r = some r') :
    r'.STATEFP = r.STATEFP ∧ r'.GEOID = r.GEOID ∧ r'.ALAND = r.ALAND ∧
    r'.AWATER = r.AWATER ∧ r'.filter1 = r.filter1 ∧ r'.land_ratio = r.land_ratio := by
  by_cases hak : r.STATEFP = "02"
  · rw [repairRow_alaska hak] at h
    obtain ⟨p, _, rfl⟩ := Option.map_eq_some'.mp h
    simp
  · rw [repairRow_not_alaska hak] at h
    cases h
    simp

theorem repairRow_some_alaska {r r' : Row} (h : repairRow r = some r')
    (hak : r'.STATEFP = "02") : ∃ p, r'.geometry = Geometry.polygon p := by
  have hst : r.STATEFP = "02" := by
    rw [← (repairRow_some_fields h).1]; exact hak
  rw [repairRow_alaska hst] at h
  obtain ⟨p, _, rfl⟩ := Option.map_eq_some'.mp h
  exact ⟨p, rfl⟩

theorem toCrs_cols (proj : Nat → Point → Point) (t : Table) : (toCrs proj t).cols = t.cols := by
  unfold toCrs
  split <;> rfl

theorem toCrs_crs (proj : Nat → Point → Point) (t : Table) : (toCrs proj t).crs = 4326 := by
  unfold toCrs
  split <;> simp_all

theorem toCrs_rows (proj : Nat → Point → Point) (t : Table) :
    (toCrs proj t).rows =
      if t.crs = 4326 then t.rows else t.rows.map (projRow (proj t.crs)) := by
  unfold toCrs
  split <;> simp_all

theorem toCrs_of_4326 {proj : Nat → Point → Point} {t : Table} (h : t.crs = 4326) :
    toCrs proj t = t := by
  simp [toCrs, h]

theorem normalizeData_cols (proj : Nat → Point → Point) (t : Table) :
    (normalizeData proj t).cols = addCol (addCol t.cols "filter1") "land_ratio" := by
  show (addLandRatio _).cols = _
  rw [addLandRatio]
  rw [toCrs_cols]

theorem normalizeData_crs (proj : Nat → Point → Point) (t : Table) :
    (normalizeData proj t).crs = 4326 := by
  show (addLandRatio _).crs = _
  rw [addLandRatio]
  exact toCrs_crs proj _

theorem normalizeData_rows (proj : Nat → Point → Point) (t : Table) :
    (normalizeData proj t).rows =
      (if t.crs = 4326 then fixAlaska (filterStates t.rows)
       else (fixAlaska (filterStates t.rows)).map (projRow (proj t.crs))).map setLandRatio := by
  show (addLandRatio _).rows = _
  rw [addLandRatio]
  rw [toCrs_rows]

theorem list_map_self {α : Type} (f : α → α) :
    ∀ l : List α, (∀ a ∈ l, f a = a) → l.map f = l := by
  intro l h
  induction l with
  | nil => rfl
  | cons a l ih =>
    simp only [List.map_cons]
    rw [h a (by simp), ih (fun b hb => h b (by simp [hb]))]

theorem list_filter_self (p : Row → Bool) :
    ∀ l : List Row, (∀ a ∈ l, p a = true) → l.filter p = l := by
  intro l h
  induction l with
  | nil => rfl
  | cons a l ih =>
    rw [List.filter_cons, if_pos (h a (by simp)), ih (fun b hb => h b (by simp [hb]))]

theorem list_filterMap_self (f : Row → Option Row) :
    ∀ l : List Row, (∀ a ∈ l, f a = some a) → l.filterMap f = l := by
  intro l h
  induction l with
  | nil => rfl
  | cons a l ih =>
    rw [List.filterMap_cons, h a (by simp), ih (fun b hb => h b (by simp [hb]))]

theorem setFilter1_id {r : Row} (h : r.filter1 = some (statefpToInt r.STATEFP)) :
    setFilter1 r = r := by
  cases r
  simp_all [setFilter1]

theorem passFilter_of_lt {r : Row} (h1 : r.filter1 = some (statefpToInt r.STATEFP))
    (h2 : statefpToInt r.STATEFP < 57) : passFilter r = true := by
  simp [passFilter, h1, h2]

theorem repairRow_id {r : Row} (h : r.STATEFP = "02" → ∃ p, r.geometry = Geometry.polygon p) :
    repairRow r = some r := by
  by_cases hak : r.STATEFP = "02"
  · obtain ⟨p, hp⟩ := h hak
    rw [repairRow_alaska hak, hp]
    show some { r with geometry := Geometry.polygon p } = some r
    cases r
    simp_all
  · exact repairRow_not_alaska hak

theorem setLandRatio_id {r : Row} (h : r.land_ratio = some (landRatio r.ALAND r.AWATER)) :
    setLandRatio r = r := by
  cases r
  simp_all [setLandRatio]

theorem maxByArea_cons (p q : Polygon) (qs : List Polygon) :
    maxByArea p (q :: qs) = maxByArea (if area p < area q then q else p) qs := rfl

theorem maxByArea_mem : ∀ (ps : List Polygon) (p : Polygon), maxByArea p ps ∈ p :: ps
  | [], p => by simp [maxByArea]
  | q :: qs, p => by
    rw [maxByArea_cons]
    have h := maxByArea_mem qs (if area p < area q then q else p)
    rcases List.mem_cons.mp h with h1 | h1
    · rw [h1]
      split <;> simp
    · simp [h1]

theorem maxByArea_ge :
    ∀ (ps : List Polygon) (p : Polygon), ∀ q ∈ p :: ps, area q ≤ area (maxByArea p ps)
  | [], p => by simp [maxByArea]
  | q :: qs, p => by
    intro x hx
    rw [maxByArea_cons]
    have hge := maxByArea_ge qs (if area p < area q then q else p)
    have hhd : area (if area p < area q then q else p) ≤
        area (maxByArea (if area p < area q then q else p) qs) := hge _ (by simp)
    rcases List.mem_cons.mp hx with rfl | hx'
    · refine le_trans ?_ hhd
      by_cases hlt : area x < area q
      · rw [if_pos hlt]
        exact le_of_lt hlt
      · rw [if_neg hlt]
    · rcases List.mem_cons.mp hx' with rfl | hmem
      · refine le_trans ?_ hhd
        by_cases hlt : area p < area x
        · rw [if_pos hlt]
        · rw [if_neg hlt]
          exact le_of_not_lt hlt
      · exact hge x (by simp [hmem])

theorem projRow_polygon {f : Point → Point} {r : Row} {p : Polygon}
    (h : r.geometry = Geometry.polygon p) :
    (projRow f r).geometry = Geometry.polygon ⟨p.ring.map f⟩ := by
  simp [projRow, h, mapGeomPoints]

theorem normalizeData_mem (proj : Nat → Point → Point) (t : Table) :
    ∀ r ∈ (normalizeData proj t).rows,
      (∃ r0 ∈ t.rows, r.STATEFP = r0.STATEFP ∧ r.GEOID = r0.GEOID ∧
        r.ALAND = r0.ALAND ∧ r.AWATER = r0.AWATER) ∧
      r.filter1 = some (statefpToInt r.STATEFP) ∧
      statefpToInt r.STATEFP < 57 ∧
      (r.STATEFP = "02" → ∃ p, r.geometry = Geometry.polygon p) ∧
      r.land_ratio = some (landRatio r.ALAND r.AWATER) := by
  intro r hr
  rw [normalizeData_rows] at hr
  obtain ⟨r3, hr3, rfl⟩ := List.mem_map.mp hr
  have hcases : ∃ r2 ∈ fixAlaska (filterStates t.rows),
      r3 = r2 ∨ r3 = projRow (proj t.crs) r2 := by
    by_cases hc : t.crs = 4326
    · rw [if_pos hc] at hr3
      exact ⟨r3, hr3, Or.inl rfl⟩
    · rw [if_neg hc] at hr3
      obtain ⟨r2, hr2, rfl⟩ := List.mem_map.mp hr3
      exact ⟨r2, hr2, Or.inr rfl⟩
  obtain ⟨r2, hr2, hr32⟩ := hcases
  obtain ⟨r1, hr1, hrep⟩ := mem_fixAlaska.mp hr2
  obtain ⟨r0, hr0, hset, hpass⟩ := mem_filterStates.mp hr1
  subst hset
  -- facts about r1 = setFilter1 r0
  have hflt : statefpToInt r0.STATEFP < 57 := by
    simpa [passFilter, setFilter1] using hpass
  -- facts about r2
  obtain ⟨h2st, h2gid, h2al, h2aw, h2f1, h2lr⟩ := repairRow_some_fields hrep
  have h2f1' : r2.filter1 = some (statefpToInt r2.STATEFP) := by
    rw [h2f1, h2st]
    simp [setFilter1]
  have h2lt : statefpToInt r2.STATEFP < 57 := by
    rw [h2st]
    simpa [setFilter1] using hflt
  have h2ak : r2.STATEFP = "02" → ∃ p, r2.geometry = Geometry.polygon p :=
    fun hak => repairRow_some_alaska hrep hak
  have h2st' : r2.STATEFP = r0.STATEFP := by
    rw [h2st]; rfl
  have h2gid' : r2.GEOID = r0.GEOID := by
    rw [h2gid]; rfl
  have h2al' : r2.ALAND = r0.ALAND := by
    rw [h2al]; rfl
  have h2aw' : r2.AWATER = r0.AWATER := by
    rw [h2aw]; rfl
  -- transfer to r3 (possibly reprojected)
  have h3 : r3.STATEFP = r2.STATEFP ∧ r3.GEOID = r2.GEOID ∧ r3.ALAND = r2.ALAND ∧
      r3.AWATER = r2.AWATER ∧ r3.filter1 = r2.filter1 ∧
      (r3.STATEFP = "02" → ∃ p, r3.geometry = Geometry.polygon p) := by
    rcases hr32 with rfl | rfl
    · exact ⟨rfl, rfl, rfl, rfl, rfl, h2ak⟩
    · refine ⟨rfl, rfl, rfl, rfl, rfl, fun hak => ?_⟩
      obtain ⟨p, hp⟩ := h2ak hak
      exact ⟨⟨p.ring.map (proj t.crs)⟩, projRow_polygon hp⟩
  obtain ⟨h3st, h3gid, h3al, h3aw, h3f1, h3ak⟩ := h3
  -- final row: setLandRatio r3
  refine ⟨⟨r0, hr0, ?_, ?_, ?_, ?_⟩, ?_, ?_, ?_, ?_⟩
  · show (setLandRatio r3).STATEFP = r0.STATEFP
    rw [show (setLandRatio r3).STATEFP = r3.STATEFP from rfl, h3st, h2st']
  · show (setLandRatio r3).GEOID = r0.GEOID
    rw [show (setLandRatio r3).GEOID = r3.GEOID from rfl, h3gid, h2gid']
  · show (setLandRatio r3).ALAND = r0.ALAND
    rw [show (setLandRatio r3).ALAND = r3.ALAND from rfl, h3al, h2al']
  · show (setLandRatio r3).AWATER = r0.AWATER
    rw [show (setLandRatio r3).AWATER = r3.AWATER from rfl, h3aw, h2aw']
  · show (setLandRatio r3).filter1 = some (statefpToInt (setLandRatio r3).STATEFP)
    rw [show (setLandRatio r3).filter1 = r3.filter1 from rfl,
      show (setLandRatio r3).STATEFP = r3.STATEFP from rfl, h3f1, h3st, h2f1']
  · show statefpToInt (setLandRatio r3).STATEFP < 57
    rw [show (setLandRatio r3).STATEFP = r3.STATEFP from rfl, h3st]
    exact h2lt
  · intro hak
    have hak3 : r3.STATEFP = "02" := by
      rw [← show (setLandRatio r3).STATEFP = r3.STATEFP from rfl]
      exact hak
    obtain ⟨p, hp⟩ := h3ak hak3
    exact ⟨p, by rw [show (setLandRatio r3).geometry = r3.geometry from rfl, hp]⟩
  · show (setLandRatio r3).land_ratio =
      some (landRatio (setLandRatio r3).ALAND (setLandRatio r3).AWATER)
    rfl

theorem normalizeData_keeps (proj : Nat → Point → Point) (t : Table) (r0 : Row)
    (h0 : r0 ∈ t.rows) (hak : r0.STATEFP ≠ "02") (hlt : statefpToInt r0.STATEFP < 57) :
    ∃ r ∈ (normalizeData proj t).rows,
      r.STATEFP = r0.STATEFP ∧ r.GEOID = r0.GEOID ∧ r.ALAND = r0.ALAND ∧
      r.AWATER = r0.AWATER ∧
      r.geometry = (if t.crs = 4326 then r0.geometry
                    else mapGeomPoints (proj t.crs) r0.geometry) := by
  have h1 : setFilter1 r0 ∈ filterStates t.rows := by
    refine List.mem_filter.mpr ⟨List.mem_map.mpr ⟨r0, h0, rfl⟩, ?_⟩
    simp [passFilter, setFilter1, hlt]
  have h2 : setFilter1 r0 ∈ fixAlaska (filterStates t.rows) := by
    refine mem_fixAlaska.mpr ⟨setFilter1 r0, h1, ?_⟩
    exact repairRow_not_alaska (by simpa [setFilter1] using hak)
  by_cases hc : t.crs = 4326
  · refine ⟨setLandRatio (setFilter1 r0), ?_, rfl, rfl, rfl, rfl, ?_⟩
    · rw [normalizeData_rows, if_pos hc]
      exact List.mem_map.mpr ⟨setFilter1 r0, h2, rfl⟩
    · rw [if_pos hc]
      rfl
  · refine ⟨setLandRatio (projRow (proj t.crs) (setFilter1 r0)), ?_, rfl, rfl, rfl, rfl, ?_⟩
    · rw [normalizeData_rows, if_neg hc]
      exact List.mem_map.mpr
        ⟨projRow (proj t.crs) (setFilter1 r0), List.mem_map.mpr ⟨setFilter1 r0, h2, rfl⟩, rfl⟩
    · rw [if_neg hc]
      rfl

theorem normalizeData_single_excluded (proj : Nat → Point → Point) (cols : List String)
    (crs : Nat) (r : Row) (h : ¬ statefpToInt r.STATEFP < 57) :
    (normalizeData proj { cols := cols, crs := crs, rows := [r] }).rows = [] := by
  rw [normalizeData_rows]
  have h1 : filterStates [r] = [] := by
    simp [filterStates, passFilter, setFilter1, h]
  rw [show ({ cols := cols, crs := crs, rows := [r] } : Table).rows = [r] from rfl] at *
  rw [h1]
  show (if crs = 4326 then fixAlaska [] else (fixAlaska []).map _).map setLandRatio = []
  split <;> rfl

theorem normalizeData_single_bad_alaska (proj : Nat → Point → Point) (cols : List String)
    (crs : Nat) (r : Row) (hak : r.STATEFP = "02")
    (hbad : get_largest_polygon r.geometry = none) :
    (normalizeData proj { cols := cols, crs := crs, rows := [r] }).rows = [] := by
  have h1 : filterStates [r] = [setFilter1 r] := by
    have hlt : statefpToInt r.STATEFP < 57 := by
      rw [hak]
      decide
    simp [filterStates, passFilter, setFilter1, hlt]
  have hrep : repairRow (setFilter1 r) = none := by
    rw [repairRow_alaska (show (setFilter1 r).STATEFP = "02" from hak)]
    rw [show (setFilter1 r).geometry = r.geometry from rfl, hbad]
    rfl
  have h2 : fixAlaska [setFilter1 r] = [] := by
    simp [fixAlaska, hrep]
  rw [normalizeData_rows]
  show (if crs = 4326 then fixAlaska (filterStates [r])
        else (fixAlaska (filterStates [r])).map (projRow (proj crs))).map setLandRatio = []
  rw [h1, h2]
  split <;> rfl

theorem normalizeData_fix (proj : Nat → Point → Point) (N : Table)
    (hcrs : N.crs = 4326) (hf1 : "filter1" ∈ N.cols) (hlr : "land_ratio" ∈ N.cols)
    (hinv : ∀ r ∈ N.rows, r.filter1 = some (statefpToInt r.STATEFP) ∧
      statefpToInt r.STATEFP < 57 ∧
      (r.STATEFP = "02" → ∃ p, r.geometry = Geometry.polygon p) ∧
      r.land_ratio = some (landRatio r.ALAND r.AWATER)) :
    normalizeData proj N = N := by
  have hmap : N.rows.map setFilter1 = N.rows :=
    list_map_self _ _ fun r hr => setFilter1_id (hinv r hr).1
  have hfil : N.rows.filter passFilter = N.rows :=
    list_filter_self _ _ fun r hr => passFilter_of_lt (hinv r hr).1 (hinv r hr).2.1
  have hfm : N.rows.filterMap repairRow = N.rows :=
    list_filterMap_self _ _ fun r hr => repairRow_id (hinv r hr).2.2.1
  have hslr : N.rows.map setLandRatio = N.rows :=
    list_map_self _ _ fun r hr => setLandRatio_id (hinv r hr).2.2.2
  have hrows : fixAlaska (filterStates N.rows) = N.rows := by
    rw [filterStates, hmap, hfil, fixAlaska, hfm]
  show addLandRatio
      (toCrs proj
        { cols := addCol N.cols "filter1",
          crs := N.crs,
          rows := fixAlaska (filterStates N.rows) }) = N
  rw [hrows, addCol_of_mem hf1, toCrs_of_4326 (show N.crs = 4326 from hcrs)]
  show ({ cols := addCol N.cols "land_ratio",
          crs := N.crs,
          rows := N.rows.map setLandRatio } : Table) = N
  rw [addCol_of_mem hlr, hslr]

theorem landRatio_eq {a w : ℚ} (ha : 0 ≤ a) (hw : 0 ≤ w) :
    landRatio a w = PVal.val (a / (a + w)) ∧
    0 ≤ a / (a + w) ∧ a / (a + w) ≤ 1 := by
  by_cases h : a + w = 0
  · have ha0 : a = 0 := le_antisymm (by linarith) ha
    have hw0 : w = 0 := le_antisymm (by linarith) hw
    subst ha0
    subst hw0
    norm_num [landRatio, pdiv, fillna0]
  · have hpos : 0 < a + w := lt_of_le_of_ne (by positivity) (Ne.symm h)
    refine ⟨?_, div_nonneg ha hpos.le, (div_le_one hpos).mpr (by linarith)⟩
    simp [landRatio, pdiv, h, fillna0]

theorem lookupCache_some {c : Cache} {path : String} {tb : Table}
    (h : lookupCache c path = some tb) : (path, tb) ∈ c := by
  unfold lookupCache at h
  obtain ⟨e, he1, he2⟩ := Option.map_eq_some'.mp h
  have hm := List.mem_of_find?_eq_some he1
  have hp : e.1 = path := by simpa using List.find?_some he1
  have : e = (path, tb) := by
    cases e
    simp_all
  rw [← this]
  exact hm

/-! Claims. -/

unseal Rat.mul Rat.inv Rat.add Rat.sub in
/-- C1 counterexample: the claim that every retained row's geometry is a single
polygon fails as stated.  The repair step only touches rows whose `STATEFP` is
`"02"`, so the concrete non-Alaska row `rowMulti`, whose geometry is a
multi-part geometry, is retained in the output with its multi-part geometry. -/
theorem C1_counterexample :
    ((normalizeData projId tableMulti).rows.all fun r => isSinglePoly r.geometry) = false ∧
    (normalizeData projId tableMulti).rows.length = 1 := by
  constructor <;> decide

/-- C1, amended: after normalization, every retained row whose state code is
the Alaska FIPS code `"02"` has a geometry that is a single polygon, never a
multi-part geometry. -/
theorem C1_alaska_single_polygon (proj : Nat → Point → Point) (t : Table) :
    ∀ r ∈ (normalizeData proj t).rows, r.STATEFP = "02" →
      ∃ p, r.geometry = Geometry.polygon p := by
  intro r hr hak
  exact (normalizeData_mem proj t r hr).2.2.2.1 hak

unseal Rat.mul Rat.inv Rat.add Rat.sub in
/-- C1 witness: the amended theorem applied to the concrete Alaska table
`tableAk`, whose output row `rowAkOut` carries a single polygon. -/
theorem C1_witness : ∃ p, rowAkOut.geometry = Geometry.polygon p :=
  C1_alaska_single_polygon projId tableAk rowAkOut (by decide) rfl

/-- C2: every row retained by the transform has state code `< 57`, and a row
whose state code is not `< 57` (such as state code 60) contributes no row to
the output. -/
theorem C2_state_code_filter (proj : Nat → Point → Point) :
    (∀ t : Table, ∀ r ∈ (normalizeData proj t).rows, statefpToInt r.STATEFP < 57) ∧
    (∀ cols crs (r : Row), ¬ statefpToInt r.STATEFP < 57 →
      (normalizeData proj { cols := cols, crs := crs, rows := [r] }).rows = []) := by
  constructor
  · intro t r hr
    exact (normalizeData_mem proj t r hr).2.2.1
  · intro cols crs r h
    exact normalizeData_single_excluded proj cols crs r h

unseal Rat.mul Rat.inv Rat.add Rat.sub in
/-- C2 witness: the retained row of the concrete table `table75` has state
code `1 < 57`, and the concrete row with state code 60 is excluded from the
output. -/
theorem C2_witness :
    statefpToInt row75out.STATEFP < 57 ∧
    (normalizeData projId { cols := baseCols, crs := 4326, rows := [row60] }).rows = [] :=
  ⟨(C2_state_code_filter projId).1 table75 row75out (by decide),
   (C2_state_code_filter projId).2 baseCols 4326 row60 (by decide)⟩

/-- C3: for an Alaska row (state code `"02"`), a single-polygon geometry is
kept unchanged, and a multi-part geometry with at least one component is
replaced by a component of maximum area. -/
theorem C3_largest_polygon (r : Row) (hak : r.STATEFP = "02") :
    (∀ p, r.geometry = Geometry.polygon p → repairRow r = some r) ∧
    (∀ p ps, r.geometry = Geometry.multiPolygon (p :: ps) →
      ∃ g, repairRow r = some { r with geometry := Geometry.polygon g } ∧
        g ∈ p :: ps ∧ ∀ q ∈ p :: ps, area q ≤ area g) := by
  constructor
  · intro p hp
    exact repairRow_id (fun _ => ⟨p, hp⟩)
  · intro p ps hp
    rw [repairRow_alaska hak, hp]
    exact ⟨maxByArea p ps, rfl, maxByArea_mem ps p, maxByArea_ge ps p⟩

unseal Rat.mul Rat.inv Rat.add Rat.sub in
/-- C3 witness: the theorem applied to the concrete Alaska row `rowAk`, whose
multi-part geometry has components of area 5, 100 and 3; the second conjunct
pins the repaired geometry to the component of area 100. -/
theorem C3_witness :
    (∃ g, repairRow rowAk = some { rowAk with geometry := Geometry.polygon g } ∧
      g ∈ rect5 :: [square100, rect3] ∧ ∀ q ∈ rect5 :: [square100, rect3], area q ≤ area g) ∧
    repairRow rowAk = some { rowAk with geometry := Geometry.polygon square100 } ∧
    area rect5 = 5 ∧ area square100 = 100 ∧ area rect3 = 3 :=
  ⟨(C3_largest_polygon rowAk rfl).2 rect5 [square100, rect3] rfl,
   by decide, by decide, by decide, by decide⟩

/-- C4: when every input row has nonnegative `ALAND` and `AWATER`, every
output row's `land_ratio` equals `ALAND / (ALAND + AWATER)`, lies in `[0, 1]`
and is never NaN; when `ALAND = AWATER = 0` it equals `0`. -/
theorem C4_land_ratio (proj : Nat → Point → Point) (t : Table)
    (hpos : ∀ r0 ∈ t.rows, 0 ≤ r0.ALAND ∧ 0 ≤ r0.AWATER) :
    ∀ r ∈ (normalizeData proj t).rows,
      r.land_ratio = some (PVal.val (r.ALAND / (r.ALAND + r.AWATER))) ∧
      0 ≤ r.ALAND / (r.ALAND + r.AWATER) ∧ r.ALAND / (r.ALAND + r.AWATER) ≤ 1 ∧
      (r.ALAND = 0 → r.AWATER = 0 → r.land_ratio = some (PVal.val 0)) := by
  intro r hr
  obtain ⟨⟨r0, hr0, _, _, hA, hW⟩, _, _, _, hlr⟩ := normalizeData_mem proj t r hr
  have ha : 0 ≤ r.ALAND := by
    rw [hA]
    exact (hpos r0 hr0).1
  have hw : 0 ≤ r.AWATER := by
    rw [hW]
    exact (hpos r0 hr0).2
  obtain ⟨heq, h0, h1⟩ := landRatio_eq ha hw
  refine ⟨by rw [hlr, heq], h0, h1, ?_⟩
  intro hA0 hW0
  rw [hlr, hA0, hW0]
  norm_num [landRatio, pdiv, fillna0]

unseal Rat.mul Rat.inv Rat.add Rat.sub in
/-- C4 witness: the theorem applied to the concrete table `table75`, whose row
has `ALAND = 300` and `AWATER = 100`; the first conjunct pins the computed
`land_ratio` to `3/4 = 0.75`. -/
theorem C4_witness :
    row75out.land_ratio = some (PVal.val (3 / 4)) ∧
    (row75out.land_ratio = some (PVal.val (row75out.ALAND / (row75out.ALAND + row75out.AWATER))) ∧
      0 ≤ row75out.ALAND / (row75out.ALAND + row75out.AWATER) ∧
      row75out.ALAND / (row75out.ALAND + row75out.AWATER) ≤ 1 ∧
      (row75out.ALAND = 0 → row75out.AWATER = 0 → row75out.land_ratio = some (PVal.val 0))) :=
  ⟨by decide, C4_land_ratio projId table75 (by decide) row75out (by decide)⟩

/-- C5: for an Alaska row whose geometry is a multi-part geometry with zero
components or an unsupported geometry, `get_largest_polygon` returns `None`,
the repair drops the row, and a table holding that row yields no output row =
silent row removal, not a hard error. -/
theorem C5_bad_geometry_removed (r : Row) (hak : r.STATEFP = "02")
    (hbad : r.geometry = Geometry.multiPolygon [] ∨ r.geometry = Geometry.unsupported) :
    get_largest_polygon r.geometry = none ∧ repairRow r = none ∧
    ∀ (proj : Nat → Point → Point) cols crs,
      (normalizeData proj { cols := cols, crs := crs, rows := [r] }).rows = [] := by
  have hg : get_largest_polygon r.geometry = none := by
    rcases hbad with h | h <;> rw [h] <;> rfl
  refine ⟨hg, ?_, ?_⟩
  · rw [repairRow_alaska hak, hg]
    rfl
  · intro proj cols crs
    exact normalizeData_single_bad_alaska proj cols crs r hak hg

/-- C5 witness: the theorem applied to the concrete Alaska row `rowAkEmpty`,
whose multi-part geometry has zero components. -/
theorem C5_witness :
    get_largest_polygon rowAkEmpty.geometry = none ∧ repairRow rowAkEmpty = none ∧
    (normalizeData projId { cols := baseCols, crs := 4326, rows := [rowAkEmpty] }).rows = [] :=
  ⟨(C5_bad_geometry_removed rowAkEmpty rfl (Or.inl rfl)).1,
   (C5_bad_geometry_removed rowAkEmpty rfl (Or.inl rfl)).2.1,
   (C5_bad_geometry_removed rowAkEmpty rfl (Or.inl rfl)).2.2 projId baseCols 4326⟩

/-- C6: the normalization transform (steps 3-7) is idempotent: applied to any
table that is already its output it returns that table unchanged. -/
theorem C6_idempotent (proj : Nat → Point → Point) (t : Table) :
    normalizeData proj (normalizeData proj t) = normalizeData proj t :=
  normalizeData_fix proj (normalizeData proj t)
    (normalizeData_crs proj t)
    (by rw [normalizeData_cols]; exact mem_addCol_of_mem _ (mem_addCol_self _ _))
    (by rw [normalizeData_cols]; exact mem_addCol_self _ _)
    (fun r hr => (normalizeData_mem proj t r hr).2)

/-- C7 counterexample: the claim that the output has exactly the input columns
plus `land_ratio` fails as stated: on the concrete table `table75` the output
also contains the helper column `filter1`, assigned on line 52 and never
dropped. -/
theorem C7_counterexample :
    (normalizeData projId table75).cols = baseCols ++ ["filter1", "land_ratio"] ∧
    (normalizeData projId table75).cols ≠ table75.cols ++ ["land_ratio"] := by
  constructor <;> decide

/-- C7, amended: the output table has exactly the input columns plus the two
added columns `filter1` and `land_ratio`; no input column is removed. -/
theorem C7_columns (proj : Nat → Point → Point) (t : Table) :
    (normalizeData proj t).cols = addCol (addCol t.cols "filter1") "land_ratio" ∧
    ∀ c ∈ t.cols, c ∈ (normalizeData proj t).cols := by
  refine ⟨normalizeData_cols proj t, fun c hc => ?_⟩
  rw [normalizeData_cols]
  exact mem_addCol_of_mem _ (mem_addCol_of_mem _ hc)

/-- C7 witness: the amended theorem applied to the concrete table `table75`
and its input column `GEOID`. -/
theorem C7_witness :
    (normalizeData projId table75).cols = addCol (addCol table75.cols "filter1") "land_ratio" ∧
    "GEOID" ∈ (normalizeData projId table75).cols :=
  ⟨(C7_columns projId table75).1, (C7_columns projId table75).2 "GEOID" (by decide)⟩

/-- C8: when the configured path does not exist `load_data` fails with the
not-found error, and when the parser fails it fails with the parse error; in
both cases no table is produced. -/
theorem C8_load_errors (proj : Nat → Point → Point) (fs : FileSys) (path : String) :
    (fs path = none → load_data proj fs path = Except.error LoadError.notFound) ∧
    (∀ e, fs path = some (Except.error e) →
      load_data proj fs path = Except.error (LoadError.parseError e)) := by
  constructor
  · intro h
    simp [load_data, h]
  · intro e h
    simp [load_data, h]

/-- C8 witness: the theorem applied to a file system with no file and to a
file system whose file fails to parse. -/
theorem C8_witness :
    load_data projId fsNone "missing.shp" = Except.error LoadError.notFound ∧
    load_data projId fsBad "bad.shp" = Except.error (LoadError.parseError "corrupt") :=
  ⟨(C8_load_errors projId fsNone "missing.shp").1 rfl,
   (C8_load_errors projId fsBad "bad.shp").2 "corrupt" rfl⟩

/-- C9: `load_data` is a deterministic function of its path (for a fixed file
system), so when every cache entry holds what `load_data` computes for its
key, the memoized call returns exactly what recomputation would produce and
keeps the cache well formed. -/
theorem C9_memoization (proj : Nat → Point → Point) (fs : FileSys) (c : Cache)
    (path : String) (hwf : WFCache proj fs c) :
    (load_data_cached proj fs c path).1 = load_data proj fs path ∧
    WFCache proj fs (load_data_cached proj fs c path).2 := by
  unfold load_data_cached
  cases hc : lookupCache c path with
  | some tb =>
    have heq : load_data proj fs path = Except.ok tb := hwf (path, tb) (lookupCache_some hc)
    exact ⟨heq.symm, hwf⟩
  | none =>
    cases hl : load_data proj fs path with
    | ok tb =>
      refine ⟨rfl, ?_⟩
      intro e he
      rcases List.mem_cons.mp he with rfl | he'
      · exact hl
      · exact hwf e he'
    | error err => exact ⟨rfl, hwf⟩

/-- C9 witness: the theorem applied to the empty (trivially well-formed)
cache, a concrete file system and path. -/
theorem C9_witness :
    (load_data_cached projId fsGood [] "good.shp").1 = load_data projId fsGood "good.shp" ∧
    WFCache projId fsGood (load_data_cached projId fsGood [] "good.shp").2 :=
  C9_memoization projId fsGood [] "good.shp" (fun e he => absurd he (List.not_mem_nil e))

unseal Rat.mul Rat.inv Rat.add Rat.sub in
/-- C10 counterexample: the claim that a retained non-Alaska row keeps its
geometry unchanged fails as stated: reprojection (step 6) moves every
geometry when the input CRS is not EPSG 4326.  On the concrete table
`table3857` with the non-identity transformation `projShift`, the single
retained row keeps its `GEOID` but not its geometry. -/
theorem C10_counterexample :
    ((normalizeData projShift table3857).rows.map fun r => r.GEOID) = [row75.GEOID] ∧
    ((normalizeData projShift table3857).rows.all fun r =>
      decide (r.geometry = row75.geometry)) = false := by
  constructor <;> decide

/-- C10, amended: every non-Alaska input row that passes the state-code
filter appears in the output with its `GEOID`, `ALAND` and `AWATER`
unchanged, and with its geometry unchanged up to the global reprojection —
exactly unchanged when the input is already in EPSG 4326 — even if that
geometry is multi-part or of an unsupported type. -/
theorem C10_non_alaska_kept (proj : Nat → Point → Point) (t : Table) (r0 : Row)
    (h0 : r0 ∈ t.rows) (hak : r0.STATEFP ≠ "02") (hlt : statefpToInt r0.STATEFP < 57) :
    ∃ r ∈ (normalizeData proj t).rows,
      r.STATEFP = r0.STATEFP ∧ r.GEOID = r0.GEOID ∧ r.ALAND = r0.ALAND ∧
      r.AWATER = r0.AWATER ∧
      r.geometry = (if t.crs = 4326 then r0.geometry
                    else mapGeomPoints (proj t.crs) r0.geometry) :=
  normalizeData_keeps proj t r0 h0 hak hlt

unseal Rat.mul Rat.inv Rat.add Rat.sub in
/-- C10 witness: the amended theorem applied to the concrete non-Alaska row
`rowMulti`, whose multi-part geometry survives unchanged in the EPSG 4326
table `tableMulti`. -/
theorem C10_witness :
    ∃ r ∈ (normalizeData projId tableMulti).rows,
      r.STATEFP = rowMulti.STATEFP ∧ r.GEOID = rowMulti.GEOID ∧ r.ALAND = rowMulti.ALAND ∧
      r.AWATER = rowMulti.AWATER ∧
      r.geometry = (if tableMulti.crs = 4326 then rowMulti.geometry
                    else mapGeomPoints (projId tableMulti.crs) rowMulti.geometry) :=
  C10_non_alaska_kept projId tableMulti rowMulti (by decide) (by decide) (by decide)
